import Mathlib

/-!
Shallow embedding of the sa-to-bq pipeline (StackAdapt → BigQuery):
Python dict/list values are modelled as a `Json` tree, Python mapping
operations (`d[k]`, `d.get(k)`, `k in d`, `len`, truthiness) as explicit
functions returning `Except` where the Python operation can raise.
The BigQuery MERGE statement is modelled on lists of rows with SQL
three-valued NULL comparison semantics for the ON clause.
-/

/-- A Python/JSON value as handled by the pipeline (parsed GraphQL responses). -/
inductive Json where
  | null : Json
  | bool : Bool → Json
  | num : Int → Json
  | str : String → Json
  | arr : List Json → Json
  | obj : List (String × Json) → Json

/-- First-match association lookup, the model of Python dict key lookup. -/
def jLookup (k : String) : List (String × Json) → Option Json
  | [] => none
  | p :: rest => if p.1 = k then some p.2 else jLookup k rest

/-- Python truthiness (`if result:`): None, False, 0, "", [], {} are falsy. -/
def pyTruthy : Json → Bool
  | .null => false
  | .bool b => b
  | .num n => decide (n ≠ 0)
  | .str s => decide (s ≠ "")
  | .arr l => !l.isEmpty
  | .obj kvs => !kvs.isEmpty

/-- Python subscription `d[k]` with a string key: returns the value for a
mapping containing the key, raises `KeyError` for a mapping without it and
`TypeError` for every non-mapping receiver. -/
def pyIdx (j : Json) (k : String) : Except String Json :=
  match j with
  | .obj kvs =>
    match jLookup k kvs with
    | some v => .ok v
    | none => .error ("KeyError: " ++ k)
  | _ => .error ("TypeError: not subscriptable at " ++ k)

/-- Python `d.get(k)`: None-defaulting lookup on a mapping, `AttributeError`
on every non-mapping receiver. -/
def pyGet (j : Json) (k : String) : Except String Json :=
  match j with
  | .obj kvs => .ok ((jLookup k kvs).getD .null)
  | _ => .error ("AttributeError: no get for " ++ k)

/-- Python `k in d` for a string `k`: key membership on a mapping, element
membership on a list, substring test on a string, `TypeError` otherwise. -/
def pyInKey (k : String) (j : Json) : Except String Bool :=
  match j with
  | .obj kvs => .ok (jLookup k kvs).isSome
  | .arr l => .ok (l.any (fun e => match e with | .str t => decide (t = k) | _ => false))
  | .str t => .ok (decide (k.toList <:+: t.toList))
  | _ => .error "TypeError: argument not iterable"

/-- Python `len`: defined for strings, lists and mappings, `TypeError` otherwise. -/
def pyLen : Json → Except String Nat
  | .str s => .ok s.length
  | .arr l => .ok l.length
  | .obj kvs => .ok kvs.length
  | _ => .error "TypeError: no len"

/-- A Python list value, as required by `for ... in` iteration. -/
def asList : Json → Except String (List Json)
  | .arr l => .ok l
  | _ => .error "TypeError: not iterable"

/-! ## Record flattener (`sync_ads_performance`, StackadaptToBigQueryPipeline.py:112-144)

Each field of the flat record is read by the exact lookup chain of the
source: required fields by unconditional subscription, `goalType` and the
metrics by `.get`. -/

/-- A flattened ad-performance record (the dict built per edge). -/
structure Rec where
  ad_id : Json
  ad_name : Json
  date : Json
  campaign_id : Json
  campaign_name : Json
  campaign_group_id : Json
  campaign_group_name : Json
  goalType : Json
  clicks : Json
  clickConversions : Json
  engagements : Json
  videoStarts : Json
  videoQ1Playbacks : Json
  videoQ2Playbacks : Json
  videoQ3Playbacks : Json
  videoCompletions : Json
  impressions : Json
  frequency : Json
  cost : Json

/-- Lookup chain node.attributes.ad.id, by unconditional subscription. -/
def chAdId (node : Json) : Except String Json := do
  let a ← pyIdx node "attributes"
  let ad ← pyIdx a "ad"
  pyIdx ad "id"

/-- Lookup chain node.attributes.ad.name, by unconditional subscription. -/
def chAdName (node : Json) : Except String Json := do
  let a ← pyIdx node "attributes"
  let ad ← pyIdx a "ad"
  pyIdx ad "name"

/-- Lookup chain node.attributes.date, by unconditional subscription. -/
def chDate (node : Json) : Except String Json := do
  let a ← pyIdx node "attributes"
  pyIdx a "date"

/-- Lookup chain node.attributes.ad.campaign.id, by unconditional subscription. -/
def chCampId (node : Json) : Except String Json := do
  let a ← pyIdx node "attributes"
  let ad ← pyIdx a "ad"
  let c ← pyIdx ad "campaign"
  pyIdx c "id"

/-- Lookup chain node.attributes.ad.campaign.name, by unconditional subscription. -/
def chCampName (node : Json) : Except String Json := do
  let a ← pyIdx node "attributes"
  let ad ← pyIdx a "ad"
  let c ← pyIdx ad "campaign"
  pyIdx c "name"

/-- Lookup chain node.attributes.ad.campaign.campaignGroup.id, by unconditional
subscription. -/
def chCgId (node : Json) : Except String Json := do
  let a ← pyIdx node "attributes"
  let ad ← pyIdx a "ad"
  let c ← pyIdx ad "campaign"
  let g ← pyIdx c "campaignGroup"
  pyIdx g "id"

/-- Lookup chain node.attributes.ad.campaign.campaignGroup.name, by unconditional
subscription. -/
def chCgName (node : Json) : Except String Json := do
  let a ← pyIdx node "attributes"
  let ad ← pyIdx a "ad"
  let c ← pyIdx ad "campaign"
  let g ← pyIdx c "campaignGroup"
  pyIdx g "name"

/-- Lookup chain node.attributes.ad.campaign, then the null-safe get of goalType. -/
def chGoalType (node : Json) : Except String Json := do
  let a ← pyIdx node "attributes"
  let ad ← pyIdx a "ad"
  let c ← pyIdx ad "campaign"
  pyGet c "goalType"

/-- Lookup of node.metrics, then the null-safe get of the metric key k. -/
def chMetric (node : Json) (k : String) : Except String Json := do
  let m ← pyIdx node "metrics"
  pyGet m k

/-- Builds the record dict of StackadaptToBigQueryPipeline.py:117-142 for one
edge node; any raising lookup aborts with that exception. -/
def flattenNode (node : Json) : Except String Rec := do
  let ad_id ← chAdId node
  let ad_name ← chAdName node
  let date ← chDate node
  let campaign_id ← chCampId node
  let campaign_name ← chCampName node
  let campaign_group_id ← chCgId node
  let campaign_group_name ← chCgName node
  let goalType ← chGoalType node
  let clicks ← chMetric node "clicks"
  let clickConversions ← chMetric node "clickConversions"
  let engagements ← chMetric node "engagements"
  let videoStarts ← chMetric node "videoStarts"
  let videoQ1Playbacks ← chMetric node "videoQ1Playbacks"
  let videoQ2Playbacks ← chMetric node "videoQ2Playbacks"
  let videoQ3Playbacks ← chMetric node "videoQ3Playbacks"
  let videoCompletions ← chMetric node "videoCompletions"
  let impressions ← chMetric node "impressions"
  let frequency ← chMetric node "frequency"
  let cost ← chMetric node "cost"
  pure ⟨ad_id, ad_name, date, campaign_id, campaign_name, campaign_group_id,
    campaign_group_name, goalType, clicks, clickConversions, engagements,
    videoStarts, videoQ1Playbacks, videoQ2Playbacks, videoQ3Playbacks,
    videoCompletions, impressions, frequency, cost⟩

/-- True when all seven unconditionally-read ("required") field lookups of
`flattenNode` succeed on this node. -/
def requiredOk (node : Json) : Bool :=
  (chAdId node).toBool && (chAdName node).toBool && (chDate node).toBool &&
  (chCampId node).toBool && (chCampName node).toBool &&
  (chCgId node).toBool && (chCgName node).toBool

/-- The loop body over edges: subscribe node on each edge, then build the
record; an exception in any iteration aborts the whole loop. -/
def collectEdgeRecords : List Json → Except String (List Rec)
  | [] => .ok []
  | e :: rest => do
    let node ← pyIdx e "node"
    let r ← flattenNode node
    let rs ← collectEdgeRecords rest
    .ok (r :: rs)

/-- The guard of StackadaptToBigQueryPipeline.py:106-108:
result truthy, then membership of the keys data, campaignGroupInsight and
records down the envelope, with Python short-circuiting; a `TypeError` raised
by the membership operator on a non-container propagates. -/
def envelopeOkSync (r : Json) : Except String Bool :=
  if !pyTruthy r then .ok false else do
    let b1 ← pyInKey "data" r
    if !b1 then .ok false else do
      let d ← pyIdx r "data"
      let b2 ← pyInKey "campaignGroupInsight" d
      if !b2 then .ok false else do
        let cgi ← pyIdx d "campaignGroupInsight"
        pyInKey "records" cgi

/-- Records contributed by one result set: a result failing the envelope
guard is skipped silently; one passing it has
result.data.campaignGroupInsight.records.edges subscribed and iterated (the
edges key itself is not guarded and can raise). -/
def resultRecords (r : Json) : Except String (List Rec) := do
  let ok ← envelopeOkSync r
  if ok then do
    let d ← pyIdx r "data"
    let cgi ← pyIdx d "campaignGroupInsight"
    let recs ← pyIdx cgi "records"
    let edges ← pyIdx recs "edges"
    let edgeList ← asList edges
    collectEdgeRecords edgeList
  else .ok []

/-- The outer `for result in all_results` loop accumulating `records`. -/
def collectAllRecords : List Json → Except String (List Rec)
  | [] => .ok []
  | r :: rest => do
    let here ← resultRecords r
    let there ← collectAllRecords rest
    .ok (here ++ there)

/-- The observable write of the staging step: the to_gbq call with replace
semantics, carrying the flattened records. -/
inductive LoadAction where
  | replace : List Rec → LoadAction

/-- The staging phase of `sync_ads_performance` after fetching, as a function
of the retrieved result sets: returns the synced-record count and the table
write performed, or the exception that escaped. Mirrors the early returns at
lines 96-98 (`if not all_results`) and 148-150 (`if not records`), which
return 0 before any load, and the replace-load at lines 171-177 otherwise. -/
def syncStage (allResults : List Json) : Except String (Nat × Option LoadAction) :=
  if allResults.isEmpty then .ok (0, none)
  else do
    let records ← collectAllRecords allResults
    if records.isEmpty then .ok (0, none)
    else .ok (records.length, some (.replace records))

/-! ## `_check_data_retrieved` (StackAdaptClient.py:279-313) -/

/-- The body of `_check_data_retrieved` inside its `try`: the guarded
navigation of lines 292-296 (four `in` checks with short-circuiting), then
`len(edges) > 0`. -/
def checkDataRetrievedE (r : Json) : Except String Bool :=
  if !pyTruthy r then .ok false else do
    let b1 ← pyInKey "data" r
    if !b1 then .ok false else do
      let d ← pyIdx r "data"
      let b2 ← pyInKey "campaignGroupInsight" d
      if !b2 then .ok false else do
        let cgi ← pyIdx d "campaignGroupInsight"
        let b3 ← pyInKey "records" cgi
        if !b3 then .ok false else do
          let recs ← pyIdx cgi "records"
          let b4 ← pyInKey "edges" recs
          if !b4 then .ok false else do
            let edges ← pyIdx recs "edges"
            let n ← pyLen edges
            .ok (decide (0 < n))

/-- `_check_data_retrieved`: the `except Exception` handler at lines 311-313
turns every raised exception into `False`. -/
def checkDataRetrieved (r : Json) : Bool :=
  match checkDataRetrievedE r with
  | .ok b => b
  | .error _ => false

/-- Structural navigation to `data.campaignGroupInsight.records.edges`
through mapping levels only (the expected nested envelope of the spec). -/
def navEdges (r : Json) : Option Json :=
  match r with
  | .obj kvs =>
    match jLookup "data" kvs with
    | some (.obj k1) =>
      match jLookup "campaignGroupInsight" k1 with
      | some (.obj k2) =>
        match jLookup "records" k2 with
        | some (.obj k3) => jLookup "edges" k3
        | _ => none
      | _ => none
    | _ => none
  | _ => none

/-- A value of positive Python length (non-empty list, string or mapping). -/
def posLen : Json → Bool
  | .arr l => decide (0 < l.length)
  | .str s => decide (0 < s.length)
  | .obj kvs => decide (0 < kvs.length)
  | _ => false

/-- The reading the claim itself gives of "the edges list exists and is
non-empty": the navigation reaches edges and its value is a non-empty list. -/
def edgesListNonempty (r : Json) : Bool :=
  match navEdges r with
  | some (.arr l) => decide (0 < l.length)
  | _ => false

/-! ## `get_all_advertiser_ids` (StackAdaptClient.py:72-101)

The function is modelled relative to the value returned by
`execute_query` (`none` models a transport failure converted to `None`). -/

/-- The append loop over the edges, collecting edge.node.id per edge. -/
def collectIds : List Json → Except String (List Json)
  | [] => .ok []
  | e :: rest => do
    let node ← pyIdx e "node"
    let i ← pyIdx node "id"
    let is ← collectIds rest
    .ok (i :: is)

/-- `get_all_advertiser_ids` given the query result: the guard
(result truthy, then membership of the keys data and advertisers,
short-circuiting, where the membership operator may raise) selects the
extraction branch, whose unguarded subscriptions of edges, node and id may
raise; the else branch returns the empty list. -/
def getAllAdvertiserIds (result : Option Json) : Except String (List Json) :=
  match result with
  | none => .ok []
  | some r =>
    if !pyTruthy r then .ok [] else do
      let b1 ← pyInKey "data" r
      if !b1 then .ok [] else do
        let d ← pyIdx r "data"
        let b2 ← pyInKey "advertisers" d
        if !b2 then .ok [] else do
          let adv ← pyIdx d "advertisers"
          let edges ← pyIdx adv "edges"
          let edgeList ← asList edges
          collectIds edgeList

/-! ## `fetch_all_ad_insights`, sequential mode (StackAdaptClient.py:356-380)

The per-advertiser query and the sleep are modelled as trace events; the
response to the query for each advertiser is given by an oracle
`fetch : String → Option Json` (`none` = transport failure). -/

/-- An observable action of the sequential loop. -/
inductive FetchEvent where
  | call : String → FetchEvent
  | sleep : FetchEvent

/-- The loop `for i, advertiser_id in enumerate(advertiser_ids, 1)`:
issue the query, keep the result only if truthy and `_check_data_retrieved`
passes, and sleep iff `i < len(advertiser_ids)` (`total`). -/
def seqLoop (fetch : String → Option Json) (total : Nat) :
    Nat → List String → List FetchEvent × List Json
  | _, [] => ([], [])
  | i, a :: rest =>
    let r := fetch a
    let kept : List Json :=
      match r with
      | some j => bif pyTruthy j && checkDataRetrieved j then [j] else []
      | none => []
    let later := seqLoop fetch total (i + 1) rest
    (FetchEvent.call a :: ((if i < total then [FetchEvent.sleep] else []) ++ later.1),
      kept ++ later.2)

/-- Sequential-mode `fetch_all_ad_insights` over a given advertiser-id list
(the early return for an empty id list coincides with the empty loop). -/
def fetchAllSeq (fetch : String → Option Json) (ids : List String) :
    List FetchEvent × List Json :=
  seqLoop fetch ids.length 1 ids

/-! ## `merge_ads_performance` (StackadaptToBigQueryPipeline.py:297-395)

The destination and staging tables are lists of rows; the MERGE statement
of lines 340-382 is modelled with SQL NULL comparison semantics for the ON
clause `target.ad_id = source.ad_id AND target.date = source.date`. -/

/-- A row of the staging/destination tables (the full column set loaded by
`sync_ads_performance`, provenance columns included). -/
structure Row where
  ad_id : Json
  ad_name : Json
  date : Json
  campaign_id : Json
  campaign_name : Json
  campaign_group_id : Json
  campaign_group_name : Json
  goalType : Json
  clicks : Json
  clickConversions : Json
  engagements : Json
  videoStarts : Json
  videoQ1Playbacks : Json
  videoQ2Playbacks : Json
  videoQ3Playbacks : Json
  videoCompletions : Json
  impressions : Json
  frequency : Json
  cost : Json
  _loaded_at : Json
  _source : Json

/-- A non-NULL scalar cell (the only values SQL `=` can declare equal). -/
def scalarNonNull : Json → Bool
  | .bool _ => true
  | .num _ => true
  | .str _ => true
  | _ => false

/-- SQL `=` on two cells as a match condition: NULL compares unknown (never a
match), non-NULL scalars compare by value, non-scalar comparisons never match. -/
def sqlEq : Json → Json → Bool
  | .bool a, .bool b => a == b
  | .num a, .num b => a == b
  | .str a, .str b => a == b
  | _, _ => false

/-- The ON clause: `target.ad_id = source.ad_id AND target.date = source.date`. -/
def keyMatch (t s : Row) : Bool :=
  sqlEq t.ad_id s.ad_id && sqlEq t.date s.date

/-- `WHEN MATCHED THEN UPDATE SET ...` (lines 344-364): every column except
the two key columns is overwritten with the source value. -/
def updateRow (t s : Row) : Row :=
  { ad_id := t.ad_id, date := t.date,
    ad_name := s.ad_name, campaign_id := s.campaign_id,
    campaign_name := s.campaign_name, campaign_group_id := s.campaign_group_id,
    campaign_group_name := s.campaign_group_name, goalType := s.goalType,
    clicks := s.clicks, clickConversions := s.clickConversions,
    engagements := s.engagements, videoStarts := s.videoStarts,
    videoQ1Playbacks := s.videoQ1Playbacks, videoQ2Playbacks := s.videoQ2Playbacks,
    videoQ3Playbacks := s.videoQ3Playbacks, videoCompletions := s.videoCompletions,
    impressions := s.impressions, frequency := s.frequency, cost := s.cost,
    _loaded_at := s._loaded_at, _source := s._source }

/-- Effect of the MERGE on one destination row: updated from its matching
source row if one exists, unchanged otherwise. (SQL rejects several source
rows matching one target row; the theorems assume source keys are unique,
under which `find?` is that unique match.) -/
def mergeOne (source : List Row) (t : Row) : Row :=
  match source.find? (fun s => keyMatch t s) with
  | some s => updateRow t s
  | none => t

/-- The MERGE statement: matched destination rows are updated in place,
unmatched destination rows kept, and source rows matching no destination row
inserted (`WHEN NOT MATCHED THEN INSERT`, lines 365-381). -/
def mergeTables (target source : List Row) : List Row :=
  target.map (mergeOne source) ++
    source.filter (fun s => !(target.any (fun t => keyMatch t s)))

/-- `merge_ads_performance`: when the destination does not yet exist it is
created as a copy of staging (lines 318-334), otherwise the MERGE runs. -/
def mergeAdsPerformance (targetExists : Bool) (target source : List Row) : List Row :=
  if targetExists then mergeTables target source else source

/-! ## Uniqueness predicates and concrete fixtures used by the claim theorems -/

/-- Source tables with pairwise non-matching (ad_id, date) keys: the shape in
which the matching of the MERGE is well defined (SQL rejects a source matching one
target row twice). -/
def uniqKeys (l : List Row) : Prop :=
  l.Pairwise (fun a b => keyMatch a b = false)

/-- Rows with non-null scalar key cells: the shape in which a staging row can
match itself under SQL `=` (a NULL key never matches, even itself). -/
def keysScalar (l : List Row) : Prop :=
  ∀ s ∈ l, scalarNonNull s.ad_id = true ∧ scalarNonNull s.date = true

/-- The advertiser id of a query event. -/
def evCallId : FetchEvent → Option String
  | .call a => some a
  | .sleep => none

/-- Is this event the inter-request delay. -/
def evIsSleep : FetchEvent → Bool
  | .sleep => true
  | .call _ => false

/-- The per-advertiser keep decision of the loop body: keep the response
only when it is truthy and `_check_data_retrieved` accepts it. -/
def keepResponse (r : Option Json) : Option Json :=
  match r with
  | some j => bif pyTruthy j && checkDataRetrieved j then some j else none
  | none => none

/-- Destination row of the C1 witness: non-null ad_name and impressions. -/
def destRowC1 : Row :=
  { ad_id := .str "ad1", date := .str "2024-01-01", ad_name := .str "old name",
    campaign_id := .str "c1", campaign_name := .str "camp", campaign_group_id := .str "g1",
    campaign_group_name := .str "group", goalType := .str "CPC",
    clicks := .num 3, clickConversions := .num 1, engagements := .num 2,
    videoStarts := .num 0, videoQ1Playbacks := .num 0, videoQ2Playbacks := .num 0,
    videoQ3Playbacks := .num 0, videoCompletions := .num 0, impressions := .num 100,
    frequency := .num 4, cost := .num 250, _loaded_at := .str "2024-01-02T00:00:00Z",
    _source := .str "stackadapt_graphql_api" }

/-- Staging row of the C1 witness: same key, null ad_name and impressions
(null must overwrite the non-null destination values). -/
def stagRowC1 : Row :=
  { ad_id := .str "ad1", date := .str "2024-01-01", ad_name := .null,
    campaign_id := .str "c1", campaign_name := .str "camp", campaign_group_id := .str "g1",
    campaign_group_name := .str "group", goalType := .null,
    clicks := .num 5, clickConversions := .num 2, engagements := .num 2,
    videoStarts := .num 0, videoQ1Playbacks := .num 0, videoQ2Playbacks := .num 0,
    videoQ3Playbacks := .num 0, videoCompletions := .num 0, impressions := .null,
    frequency := .num 4, cost := .num 300, _loaded_at := .str "2024-01-03T00:00:00Z",
    _source := .str "stackadapt_graphql_api" }

/-- Destination row of the C2 witness: a historical row outside the staging
window (key matches no staging row). -/
def destRowC2 : Row :=
  { destRowC1 with ad_id := .str "ad9", date := .str "2023-05-05" }

/-- A staging row with a NULL ad_id: under SQL `=` it matches no row, itself
included, so each MERGE inserts it again. -/
def stagRowNullKey : Row :=
  { stagRowC1 with ad_id := .null }

/-- A well-formed insight response envelope with the given edge list. -/
def mkInsightEnv (edges : List Json) : Json :=
  .obj [("data", .obj [("campaignGroupInsight",
    .obj [("records", .obj [("edges", .arr edges)])])])]

/-- A well-formed campaign object without a goalType key. -/
def campNoGoal : Json :=
  .obj [("id", .str "c1"), ("name", .str "camp"),
    ("campaignGroup", .obj [("id", .str "g1"), ("name", .str "grp")])]

/-- An edge node whose `ad` object has no `name` key (ad_name absent);
everything else well formed. -/
def nodeMissingAdName : Json :=
  .obj [("attributes", .obj [
      ("ad", .obj [("id", .str "a1"), ("campaign", campNoGoal)]),
      ("date", .str "2024-01-01")]),
    ("metrics", .obj [])]

/-- A node with all required fields present, a campaign object without a
goalType key, and an arbitrary metrics mapping. -/
def mkNodeNoGoalType (adId adName dateV campId campName cgId cgName : Json)
    (mets : List (String × Json)) : Json :=
  .obj [("attributes", .obj [
      ("ad", .obj [
        ("id", adId), ("name", adName),
        ("campaign", .obj [
          ("id", campId), ("name", campName),
          ("campaignGroup", .obj [("id", cgId), ("name", cgName)])])]),
      ("date", dateV)]),
    ("metrics", .obj mets)]

/-- An edge node whose attributes mapping has no `date` key (required field
absent). -/
def nodeMissingDate : Json :=
  .obj [("attributes", .obj [
      ("ad", .obj [("id", .str "a1"), ("name", .str "Ad 1"),
        ("campaign", campNoGoal)])]),
    ("metrics", .obj [])]

/-- The raw edge wrapping `nodeMissingDate`. -/
def edgeMissingDate : Json := .obj [("node", nodeMissingDate)]

/-- A response whose `edges` value is a non-empty string rather than a list. -/
def respEdgesStr : Json :=
  .obj [("data", .obj [("campaignGroupInsight",
    .obj [("records", .obj [("edges", .str "x")])])])]

/-- One advertiser edge of a well-formed listing response. -/
def mkAdvEdge (i : String) : Json :=
  .obj [("node", .obj [("id", .str i)])]

/-- A well-formed advertiser-listing envelope for the given ids. -/
def mkAdvEnvelope (ids : List String) : Json :=
  .obj [("data", .obj [("advertisers",
    .obj [("edges", .arr (ids.map mkAdvEdge))])])]

/-- A listing response whose `data.advertisers` object has no edges list:
it passes both membership guards, and the unguarded edges subscription
raises. -/
def respAdvNoEdges : Json :=
  .obj [("data", .obj [("advertisers", .obj [])])]

/-! ## Lemmas about the SQL match condition -/

theorem sqlEq_eq {a b : Json} (h : sqlEq a b = true) : a = b := by
  cases a <;> cases b <;> simp [sqlEq] at h <;> simp [h]

theorem sqlEq_scalar_left {a b : Json} (h : sqlEq a b = true) :
    scalarNonNull a = true := by
  cases a <;> cases b <;> simp [sqlEq] at h <;> simp [scalarNonNull]

theorem sqlEq_refl {a : Json} (h : scalarNonNull a = true) : sqlEq a a = true := by
  cases a <;> simp [scalarNonNull] at h <;> simp [sqlEq]

theorem keyMatch_trans {t h s : Row} (h1 : keyMatch t h = true)
    (h2 : keyMatch t s = true) : keyMatch h s = true := by
  simp only [keyMatch, Bool.and_eq_true] at h1 h2 ⊢
  have e1 := sqlEq_eq h1.1
  have e2 := sqlEq_eq h1.2
  have e3 := sqlEq_eq h2.1
  have e4 := sqlEq_eq h2.2
  constructor
  · rw [← e1, ← e3]
    exact sqlEq_refl (sqlEq_scalar_left h2.1)
  · rw [← e2, ← e4]
    exact sqlEq_refl (sqlEq_scalar_left h2.2)

theorem keyMatch_self {s : Row} (h1 : scalarNonNull s.ad_id = true)
    (h2 : scalarNonNull s.date = true) : keyMatch s s = true := by
  simp only [keyMatch, Bool.and_eq_true]
  exact ⟨sqlEq_refl h1, sqlEq_refl h2⟩

theorem find?_keyMatch_uniq {l : List Row} {t s : Row} (hu : uniqKeys l)
    (hs : s ∈ l) (hk : keyMatch t s = true) :
    l.find? (fun x => keyMatch t x) = some s := by
  induction l with
  | nil => cases hs
  | cons a rest ih =>
    rw [uniqKeys, List.pairwise_cons] at hu
    rcases List.mem_cons.mp hs with rfl | hmem
    · simp [List.find?, hk]
    · have ha : keyMatch t a = false := by
        cases hcase : keyMatch t a with
        | false => rfl
        | true =>
          have := keyMatch_trans hcase hk
          rw [hu.1 s hmem] at this
          cases this
      simp [List.find?, ha]
      exact ih hu.2 hmem

theorem updateRow_eq_source {t s : Row} (h1 : t.ad_id = s.ad_id)
    (h2 : t.date = s.date) : updateRow t s = s := by
  cases t; cases s
  simp_all [updateRow]

/-! ## Claim theorems for the MERGE (C1, C2) -/

/-- C1: For every destination row matched by a staging row on the composite
key (ad_id, date), after the MERGE that destination row (kept at its
position) equals the staging row in every field — a full per-row replace,
null staging fields overwriting non-null destination fields included. -/
theorem merge_matched_full_replace (target source : List Row) (i : Nat)
    (hi : i < target.length) (s : Row) (hs : s ∈ source)
    (hu : uniqKeys source)
    (hk : keyMatch (target.get ⟨i, hi⟩) s = true) :
    ∃ hj : i < (mergeTables target source).length,
      (mergeTables target source).get ⟨i, hj⟩ = s := by
  have hlen : i < (mergeTables target source).length := by
    simp only [mergeTables, List.length_append, List.length_map]
    omega
  refine ⟨hlen, ?_⟩
  have hmap : i < (target.map (mergeOne source)).length := by
    simpa using hi
  have hget : (mergeTables target source).get ⟨i, hlen⟩ =
      (target.map (mergeOne source)).get ⟨i, hmap⟩ := by
    simp only [mergeTables, List.get_eq_getElem]
    exact List.getElem_append_left hmap
  rw [hget]
  simp only [List.get_eq_getElem, List.getElem_map]
  simp only [List.get_eq_getElem] at hk
  rw [mergeOne, find?_keyMatch_uniq hu hs hk]
  simp only [keyMatch, Bool.and_eq_true] at hk
  exact updateRow_eq_source (sqlEq_eq hk.1) (sqlEq_eq hk.2)

/-- Witness for C1 at a concrete matched pair where staging holds nulls. -/
theorem merge_matched_full_replace_witness :
    ∃ hj : 0 < (mergeTables [destRowC1] [stagRowC1]).length,
      (mergeTables [destRowC1] [stagRowC1]).get ⟨0, hj⟩ = stagRowC1 :=
  merge_matched_full_replace [destRowC1] [stagRowC1] 0 (by decide) stagRowC1
    (List.mem_singleton.mpr rfl) (by simp [uniqKeys]) (by decide)

/-- C2: a destination row whose key matches no staging row is preserved by
the MERGE at its position, all fields unchanged. -/
theorem merge_unmatched_untouched (target source : List Row) (i : Nat)
    (hi : i < target.length)
    (h : ∀ s ∈ source, keyMatch (target.get ⟨i, hi⟩) s = false) :
    ∃ hj : i < (mergeTables target source).length,
      (mergeTables target source).get ⟨i, hj⟩ = target.get ⟨i, hi⟩ := by
  have hlen : i < (mergeTables target source).length := by
    simp only [mergeTables, List.length_append, List.length_map]
    omega
  refine ⟨hlen, ?_⟩
  have hmap : i < (target.map (mergeOne source)).length := by
    simpa using hi
  have hget : (mergeTables target source).get ⟨i, hlen⟩ =
      (target.map (mergeOne source)).get ⟨i, hmap⟩ := by
    simp only [mergeTables, List.get_eq_getElem]
    exact List.getElem_append_left hmap
  rw [hget]
  simp only [List.get_eq_getElem, List.getElem_map]
  simp only [List.get_eq_getElem] at h
  rw [mergeOne]
  have hnone : (source.find? (fun x => keyMatch target[i] x)) = none := by
    rw [List.find?_eq_none]
    intro x hx
    simp [h x hx]
  rw [hnone]

/-- Witness for C2: a concrete unmatched destination row survives unchanged. -/
theorem merge_unmatched_untouched_witness :
    ∃ hj : 0 < (mergeTables [destRowC2] [stagRowC1]).length,
      (mergeTables [destRowC2] [stagRowC1]).get ⟨0, hj⟩ =
        [destRowC2].get ⟨0, by decide⟩ :=
  merge_unmatched_untouched [destRowC2] [stagRowC1] 0 (by decide)
    (by
      intro s hs
      rcases List.mem_singleton.mp hs with rfl
      decide)

/-! ## Idempotence of the MERGE (C9) -/

theorem keyMatch_updateRow (t s x : Row) :
    keyMatch (updateRow t s) x = keyMatch t x := rfl

theorem listMapIdOn {α : Type} (l : List α) (f : α → α) (h : ∀ a ∈ l, f a = a) :
    l.map f = l :=
  (List.map_congr_left h).trans (List.map_id' l)

theorem mergeOne_fixed_on_merge (target source : List Row)
    (hs : keysScalar source) (hu : uniqKeys source) :
    ∀ t' ∈ mergeTables target source, mergeOne source t' = t' := by
  intro t' ht'
  rcases List.mem_append.mp ht' with hleft | hright
  · rcases List.mem_map.mp hleft with ⟨t, _, rfl⟩
    cases hfind : source.find? (fun s => keyMatch t s) with
    | none => simp [mergeOne, hfind]
    | some s =>
      have hfun : (fun x => keyMatch (updateRow t s) x) = (fun x => keyMatch t x) := rfl
      simp only [mergeOne, hfind]
      rw [hfun, hfind]
      rfl
  · rcases List.mem_filter.mp hright with ⟨hsmem, _⟩
    have hself : keyMatch t' t' = true :=
      keyMatch_self (hs t' hsmem).1 (hs t' hsmem).2
    rw [mergeOne, find?_keyMatch_uniq hu hsmem hself]
    exact updateRow_eq_source rfl rfl

theorem merge_filter_nil (target source : List Row)
    (hs : keysScalar source) (hu : uniqKeys source) :
    source.filter
      (fun s => !((mergeTables target source).any (fun t => keyMatch t s))) = [] := by
  rw [List.filter_eq_nil_iff]
  intro s hsmem
  simp only [Bool.not_eq_true', Bool.not_eq_eq_eq_not, Bool.not_true, Bool.not_false]
  suffices hany : (mergeTables target source).any (fun t => keyMatch t s) = true by
    simp [hany]
  rw [List.any_eq_true]
  cases htarget : target.any (fun t => keyMatch t s) with
  | true =>
    rcases List.any_eq_true.mp htarget with ⟨t, htmem, htk⟩
    have hfind := find?_keyMatch_uniq hu hsmem htk
    refine ⟨updateRow t s, ?_, ?_⟩
    · exact List.mem_append.mpr (Or.inl
        (List.mem_map.mpr ⟨t, htmem, by simp [mergeOne, hfind]⟩))
    · rw [keyMatch_updateRow]
      exact htk
  | false =>
    refine ⟨s, ?_, keyMatch_self (hs s hsmem).1 (hs s hsmem).2⟩
    exact List.mem_append.mpr (Or.inr (List.mem_filter.mpr ⟨hsmem, by simp [htarget]⟩))

/-- C9 (amended): for staging content whose rows carry non-null scalar
(ad_id, date) keys, pairwise distinct, merging the same staging snapshot a
second time leaves the destination table exactly as after the first merge. -/
theorem merge_idempotent (target source : List Row)
    (hs : keysScalar source) (hu : uniqKeys source) :
    mergeTables (mergeTables target source) source = mergeTables target source := by
  have h1 : (mergeTables target source).map (mergeOne source) =
      mergeTables target source :=
    listMapIdOn _ _ (mergeOne_fixed_on_merge target source hs hu)
  have h2 := merge_filter_nil target source hs hu
  calc mergeTables (mergeTables target source) source
      = (mergeTables target source).map (mergeOne source) ++
        source.filter
          (fun s => !((mergeTables target source).any (fun t => keyMatch t s))) := rfl
    _ = mergeTables target source ++ [] := by rw [h1, h2]
    _ = mergeTables target source := by simp

/-- Counterexample to C9 as stated: merging the same staging snapshot (one
row with NULL ad_id) twice into an initially empty destination leaves two
copies of the row — the second merge changes the destination (row count 1 → 2). -/
theorem merge_idempotent_counterexample :
    (mergeTables (mergeTables [] [stagRowNullKey]) [stagRowNullKey]).length = 2 ∧
    (mergeTables [] [stagRowNullKey]).length = 1 :=
  ⟨rfl, rfl⟩

/-- Witness for the amended C9 at concrete tables. -/
theorem merge_idempotent_witness :
    mergeTables (mergeTables [destRowC2] [stagRowC1]) [stagRowC1] =
      mergeTables [destRowC2] [stagRowC1] :=
  merge_idempotent [destRowC2] [stagRowC1]
    (by
      intro s hsmem
      rcases List.mem_singleton.mp hsmem with rfl
      exact ⟨rfl, rfl⟩)
    (by simp [uniqKeys])

/-! ## Sequential-mode extraction trace (C4, C10) -/

theorem seqLoop_events (fetch : String → Option Json) (total : Nat) :
    ∀ (l : List String) (i : Nat), i + l.length = total + 1 →
      (seqLoop fetch total i l).1 =
        List.intersperse FetchEvent.sleep (l.map FetchEvent.call) := by
  intro l
  induction l with
  | nil => intro i _; rfl
  | cons a tl ih =>
    intro i hlen
    cases tl with
    | nil =>
      have hge : ¬ i < total := by simp at hlen; omega
      show FetchEvent.call a ::
          ((if i < total then [FetchEvent.sleep] else []) ++
            (seqLoop fetch total (i + 1) []).1) = _
      rw [if_neg hge]
      rfl
    | cons b tl' =>
      have hlt : i < total := by simp at hlen; omega
      have hnext : (i + 1) + (b :: tl').length = total + 1 := by
        simp at hlen ⊢; omega
      show FetchEvent.call a ::
          ((if i < total then [FetchEvent.sleep] else []) ++
            (seqLoop fetch total (i + 1) (b :: tl')).1) = _
      rw [if_pos hlt, ih (i + 1) hnext]
      rfl

theorem filterMap_evCallId_intersperse :
    ∀ l : List String,
      (List.intersperse FetchEvent.sleep (l.map FetchEvent.call)).filterMap evCallId
        = l := by
  intro l
  induction l with
  | nil => rfl
  | cons a tl ih =>
    cases tl with
    | nil => rfl
    | cons b tl' =>
      simp only [List.map_cons, List.intersperse_cons_cons, List.filterMap_cons]
      simp only [List.map_cons] at ih
      simp [evCallId, ih]

theorem countP_sleep_intersperse :
    ∀ l : List String,
      (List.intersperse FetchEvent.sleep (l.map FetchEvent.call)).countP evIsSleep
        = l.length - 1 := by
  intro l
  induction l with
  | nil => rfl
  | cons a tl ih =>
    cases tl with
    | nil => rfl
    | cons b tl' =>
      simp only [List.map_cons, List.intersperse_cons_cons, List.countP_cons]
      simp only [List.map_cons] at ih
      simp [evIsSleep, ih]

/-- C4: sequential-mode extraction issues exactly one query event per
advertiser id, in input order, with exactly one delay between consecutive
queries — the event trace is the query events of the id sequence interspersed
with single delays (so N calls, N−1 delays, none after the last). -/
theorem fetch_sequential_trace (fetch : String → Option Json) (ids : List String) :
    (fetchAllSeq fetch ids).1 =
        List.intersperse FetchEvent.sleep (ids.map FetchEvent.call) ∧
      (fetchAllSeq fetch ids).1.filterMap evCallId = ids ∧
      (fetchAllSeq fetch ids).1.countP evIsSleep = ids.length - 1 := by
  have h := seqLoop_events fetch ids.length ids 1 (by omega)
  refine ⟨h, ?_, ?_⟩
  · rw [fetchAllSeq, h]
    exact filterMap_evCallId_intersperse ids
  · rw [fetchAllSeq, h]
    exact countP_sleep_intersperse ids

theorem seqLoop_results (fetch : String → Option Json) (total : Nat) :
    ∀ (l : List String) (i : Nat),
      (seqLoop fetch total i l).2 = l.filterMap (fun a => keepResponse (fetch a)) := by
  intro l
  induction l with
  | nil => intro i; rfl
  | cons a tl ih =>
    intro i
    show (match fetch a with
        | some j => bif pyTruthy j && checkDataRetrieved j then [j] else []
        | none => []) ++ (seqLoop fetch total (i + 1) tl).2 = _
    rw [ih (i + 1), List.filterMap_cons]
    cases hfa : fetch a with
    | none => rfl
    | some j =>
      cases hkeep : pyTruthy j && checkDataRetrieved j with
      | true => simp [keepResponse, hfa, hkeep]
      | false => simp [keepResponse, hfa, hkeep]

theorem filterMap_keep_sublist (fetch : String → Option Json) :
    ∀ ids : List String,
      List.Sublist (ids.filterMap (fun a => keepResponse (fetch a)))
        (ids.filterMap fetch) := by
  intro ids
  induction ids with
  | nil => exact List.Sublist.refl []
  | cons a tl ih =>
    simp only [List.filterMap_cons]
    cases hfa : fetch a with
    | none => simpa [keepResponse] using ih
    | some j =>
      simp only [keepResponse]
      cases hkeep : pyTruthy j && checkDataRetrieved j with
      | true =>
        simp only [Bool.cond_true]
        exact List.Sublist.cons₂ j ih
      | false =>
        simp only [Bool.cond_false]
        exact List.Sublist.cons j ih

/-- C10: in sequential mode, every returned response passed the
data-records check (and was truthy); the result list is a subsequence of
the successfully fetched responses in input order, of length at most the
number of advertiser ids. -/
theorem fetch_sequential_results (fetch : String → Option Json) (ids : List String) :
    (∀ r ∈ (fetchAllSeq fetch ids).2,
        pyTruthy r = true ∧ checkDataRetrieved r = true) ∧
      List.Sublist (fetchAllSeq fetch ids).2 (ids.filterMap fetch) ∧
      (fetchAllSeq fetch ids).2.length ≤ ids.length := by
  have hres := seqLoop_results fetch ids.length ids 1
  rw [fetchAllSeq, hres]
  refine ⟨?_, filterMap_keep_sublist fetch ids, ?_⟩
  · intro r hr
    rcases List.mem_filterMap.mp hr with ⟨a, _, hstep⟩
    cases hfa : fetch a with
    | none => rw [hfa] at hstep; cases hstep
    | some j =>
      rw [hfa] at hstep
      simp only [keepResponse] at hstep
      cases hkeep : pyTruthy j && checkDataRetrieved j with
      | true =>
        rw [hkeep, Bool.cond_true] at hstep
        cases hstep
        simpa using hkeep
      | false =>
        rw [hkeep, Bool.cond_false] at hstep
        cases hstep
  · calc (ids.filterMap (fun a => keepResponse (fetch a))).length
        ≤ (ids.filterMap fetch).length :=
          (filterMap_keep_sublist fetch ids).length_le
      _ ≤ ids.length := List.length_filterMap_le fetch ids

/-! ## Staging with an empty record sequence (C3) -/

/-- Counterexample to C3 as stated: for a retrieved result set whose edge
list is empty, the staging step returns 0 **without performing any table
write** — the claimed replace of the staging table by an empty table does
not happen (the function returns before the load call). -/
theorem syncStage_empty_counterexample :
    syncStage [mkInsightEnv []] = .ok (0, none) ∧
      syncStage [mkInsightEnv []] ≠ .ok (0, some (LoadAction.replace [])) := by
  refine ⟨rfl, ?_⟩
  intro h
  rw [show syncStage [mkInsightEnv []] =
    Except.ok ((0 : Nat), (none : Option LoadAction)) from rfl] at h
  simp at h

/-- C3 (amended): when the flattened record sequence is empty the staging
step returns zero rows without error, and performs no staging-table write at
all — the staging table keeps its prior contents instead of being replaced
by an empty table. -/
theorem syncStage_zero_records_no_write (results : List Json)
    (h : collectAllRecords results = .ok []) :
    syncStage results = .ok (0, none) := by
  by_cases he : results.isEmpty
  · unfold syncStage
    rw [if_pos he]
  · unfold syncStage
    rw [if_neg he, h]
    rfl

/-- Witness for the amended C3 at a concrete empty-edge input. -/
theorem syncStage_zero_records_no_write_witness :
    syncStage [mkInsightEnv []] = .ok (0, none) :=
  syncStage_zero_records_no_write [mkInsightEnv []] rfl

/-! ## Null handling of descriptive attributes in the flattener (C5) -/

/-- Counterexample to C5 as stated: with the descriptive attribute `ad_name`
absent, the flattener does not produce a record with a null field — the
unconditional lookup raises, so no record exists for this edge. -/
theorem flatten_absent_descriptive_counterexample :
    flattenNode nodeMissingAdName = .error "KeyError: name" := rfl

/-- C5 (amended): among the descriptive attributes only `goal_type` is
null-safe, and only at its own level: when every required field is present
and the metrics container is a mapping, a campaign object lacking the
goalType key still yields a record, with goalType null (metrics default to
null the same way); the other descriptive attributes are read
unconditionally, so their absence raises instead (see the counterexample). -/
theorem flatten_goalType_null_safe
    (adId adName dateV campId campName cgId cgName : Json)
    (mets : List (String × Json)) :
    flattenNode (mkNodeNoGoalType adId adName dateV campId campName cgId cgName mets) =
      .ok
        { ad_id := adId, ad_name := adName, date := dateV,
          campaign_id := campId, campaign_name := campName,
          campaign_group_id := cgId, campaign_group_name := cgName,
          goalType := .null,
          clicks := (jLookup "clicks" mets).getD .null,
          clickConversions := (jLookup "clickConversions" mets).getD .null,
          engagements := (jLookup "engagements" mets).getD .null,
          videoStarts := (jLookup "videoStarts" mets).getD .null,
          videoQ1Playbacks := (jLookup "videoQ1Playbacks" mets).getD .null,
          videoQ2Playbacks := (jLookup "videoQ2Playbacks" mets).getD .null,
          videoQ3Playbacks := (jLookup "videoQ3Playbacks" mets).getD .null,
          videoCompletions := (jLookup "videoCompletions" mets).getD .null,
          impressions := (jLookup "impressions" mets).getD .null,
          frequency := (jLookup "frequency" mets).getD .null,
          cost := (jLookup "cost" mets).getD .null } := rfl

/-! ## Hard failure on absent required fields (C6) -/

theorem exceptBindOk {α β : Type} (a : α) (f : α → Except String β) :
    (Except.ok a >>= f) = f a := rfl

theorem bindCases {α β : Type} (x : Except String α) (f : α → Except String β)
    (h : ∀ a, x = .ok a → ∃ m, f a = .error m) : ∃ m, (x >>= f) = .error m := by
  cases x with
  | error e => exact ⟨e, rfl⟩
  | ok a =>
    rcases h a rfl with ⟨m, hm⟩
    exact ⟨m, by rw [exceptBindOk, hm]⟩

theorem jLookup_isSome_ne_nil {k : String} {kvs : List (String × Json)} {v : Json}
    (h : jLookup k kvs = some v) : kvs.isEmpty = false := by
  cases kvs with
  | nil => simp [jLookup] at h
  | cons p rest => rfl

theorem navEdges_some_elim {r v : Json} (h : navEdges r = some v) :
    ∃ kvs k1 k2 k3, r = .obj kvs ∧
      jLookup "data" kvs = some (.obj k1) ∧
      jLookup "campaignGroupInsight" k1 = some (.obj k2) ∧
      jLookup "records" k2 = some (.obj k3) ∧
      jLookup "edges" k3 = some v := by
  cases r with
  | obj kvs =>
    refine ⟨kvs, ?_⟩
    simp only [navEdges] at h
    cases hd : jLookup "data" kvs with
    | none => simp [hd] at h
    | some d =>
      simp only [hd] at h
      cases d with
      | obj k1 =>
        refine ⟨k1, ?_⟩
        cases hcgi : jLookup "campaignGroupInsight" k1 with
        | none => simp [hcgi] at h
        | some c =>
          simp only [hcgi] at h
          cases c with
          | obj k2 =>
            refine ⟨k2, ?_⟩
            cases hrecs : jLookup "records" k2 with
            | none => simp [hrecs] at h
            | some rv =>
              simp only [hrecs] at h
              cases rv with
              | obj k3 => exact ⟨k3, rfl, rfl, rfl, rfl, h⟩
              | null => cases h
              | bool b => cases h
              | num n => cases h
              | str s => cases h
              | arr l => cases h
          | null => cases h
          | bool b => cases h
          | num n => cases h
          | str s => cases h
          | arr l => cases h
      | null => cases h
      | bool b => cases h
      | num n => cases h
      | str s => cases h
      | arr l => cases h
  | null => cases h
  | bool b => cases h
  | num n => cases h
  | str s => cases h
  | arr l => cases h

theorem resultRecords_of_navEdges {r v : Json} (h : navEdges r = some v) :
    resultRecords r = (asList v >>= collectEdgeRecords) := by
  rcases navEdges_some_elim h with ⟨kvs, k1, k2, k3, rfl, hd, hcgi, hrecs, hedges⟩
  have hne := jLookup_isSome_ne_nil hd
  simp [resultRecords, envelopeOkSync, pyTruthy, pyInKey, pyIdx, hd, hcgi,
    hrecs, hedges, hne, exceptBindOk]

theorem flattenNode_error_of_requiredFail {nd : Json} (h : requiredOk nd = false) :
    ∃ m, flattenNode nd = .error m := by
  simp only [flattenNode]
  apply bindCases
  intro v1 h1
  apply bindCases
  intro v2 h2
  apply bindCases
  intro v3 h3
  apply bindCases
  intro v4 h4
  apply bindCases
  intro v5 h5
  apply bindCases
  intro v6 h6
  apply bindCases
  intro v7 h7
  exfalso
  rw [requiredOk, h1, h2, h3, h4, h5, h6, h7] at h
  simp [Except.toBool, Except.isOk] at h

theorem collectEdgeRecords_error {l : List Json} {e nd : Json} (he : e ∈ l)
    (hnode : pyIdx e "node" = .ok nd) (hreq : requiredOk nd = false) :
    ∃ m, collectEdgeRecords l = .error m := by
  induction l with
  | nil => cases he
  | cons a rest ih =>
    rcases List.mem_cons.mp he with rfl | hmem
    · simp only [collectEdgeRecords]
      apply bindCases
      intro node hnodeEq
      rw [hnode] at hnodeEq
      injection hnodeEq with hh
      subst hh
      apply bindCases
      intro r hr
      rcases flattenNode_error_of_requiredFail hreq with ⟨m, hm⟩
      rw [hr] at hm
      cases hm
    · simp only [collectEdgeRecords]
      apply bindCases
      intro node _
      apply bindCases
      intro r _
      apply bindCases
      intro rs hrs
      rcases ih hmem with ⟨m, hm⟩
      rw [hrs] at hm
      cases hm

theorem collectAllRecords_error {results : List Json} {r : Json} (hr : r ∈ results)
    (herr : ∃ m, resultRecords r = .error m) :
    ∃ m, collectAllRecords results = .error m := by
  induction results with
  | nil => cases hr
  | cons a rest ih =>
    rcases List.mem_cons.mp hr with rfl | hmem
    · simp only [collectAllRecords]
      apply bindCases
      intro here hhere
      rcases herr with ⟨m, hm⟩
      rw [hhere] at hm
      cases hm
    · simp only [collectAllRecords]
      apply bindCases
      intro here _
      apply bindCases
      intro there hthere
      rcases ih hmem with ⟨m, hm⟩
      rw [hthere] at hm
      cases hm

/-- C6: if any response edge node lacks one of the seven unconditionally
read required fields (ad_id, ad_name, date, campaign_id, campaign_name,
campaign_group_id, campaign_group_name — `requiredOk` false), then the whole
staging phase fails with an exception: no defaulted or partial record is
produced and the failure propagates out of `sync_ads_performance`. -/
theorem required_field_failure_fails_pipeline
    (results : List Json) (r : Json) (hr : r ∈ results)
    (l : List Json) (hnav : navEdges r = some (.arr l))
    (e : Json) (he : e ∈ l) (nd : Json)
    (hnode : pyIdx e "node" = .ok nd) (hreq : requiredOk nd = false) :
    ∃ m, syncStage results = .error m := by
  have hres : ∃ m, resultRecords r = .error m := by
    simp only [resultRecords_of_navEdges hnav, asList, exceptBindOk]
    exact collectEdgeRecords_error he hnode hreq
  rcases collectAllRecords_error hr hres with ⟨m, hm⟩
  have hne : results.isEmpty = false := by
    cases results with
    | nil => cases hr
    | cons a rest => rfl
  refine ⟨m, ?_⟩
  unfold syncStage
  rw [if_neg (by simp [hne]), hm]
  rfl

/-- Witness for C6 at a concrete response whose edge lacks the `date` field. -/
theorem required_field_failure_fails_pipeline_witness :
    ∃ m, syncStage [mkInsightEnv [edgeMissingDate]] = .error m :=
  required_field_failure_fails_pipeline [mkInsightEnv [edgeMissingDate]]
    (mkInsightEnv [edgeMissingDate]) (List.mem_singleton.mpr rfl)
    [edgeMissingDate] rfl
    edgeMissingDate (List.mem_singleton.mpr rfl)
    nodeMissingDate rfl rfl

/-! ## The defensive data-records check (C7) -/

theorem exceptBindErr {α β : Type} (e : String) (f : α → Except String β) :
    ((Except.error e : Except String α) >>= f) = Except.error e := rfl

theorem guardStep (k : String) (x : Json) (rest : Json → Except String Bool) :
    ((pyInKey k x >>= fun b => if !b then Except.ok false else pyIdx x k >>= rest)
        = Except.ok true)
    ↔ ∃ kvs v, x = .obj kvs ∧ jLookup k kvs = some v ∧ rest v = .ok true := by
  cases x with
  | obj kvs =>
    cases hl : jLookup k kvs with
    | none => simp [pyInKey, pyIdx, hl, exceptBindOk]
    | some v => simp [pyInKey, pyIdx, hl, exceptBindOk]
  | null => simp [pyInKey, exceptBindErr]
  | bool b => simp [pyInKey, exceptBindErr]
  | num n => simp [pyInKey, exceptBindErr]
  | str t =>
    by_cases hs : k.data <:+: t.data
    · simp [pyInKey, hs, exceptBindOk, pyIdx, exceptBindErr]
    · simp [pyInKey, hs, exceptBindOk]
  | arr l =>
    cases ha : l.any (fun e => match e with | .str t => decide (t = k) | _ => false) with
    | false => simp [pyInKey, ha, exceptBindOk]
    | true => simp [pyInKey, ha, exceptBindOk, pyIdx, exceptBindErr]

theorem lenStep (x : Json) :
    ((pyLen x >>= fun n => Except.ok (decide (0 < n))) = Except.ok true)
      ↔ posLen x = true := by
  cases x <;> simp [pyLen, posLen, exceptBindOk, exceptBindErr]

theorem navEdges_some_truthy {r v : Json} (h : navEdges r = some v) :
    pyTruthy r = true := by
  rcases navEdges_some_elim h with ⟨kvs, k1, k2, k3, rfl, hd, -, -, -⟩
  simp [pyTruthy, jLookup_isSome_ne_nil hd]

theorem checkE_ok_true_iff (r : Json) :
    checkDataRetrievedE r = .ok true ↔
      ∃ v, navEdges r = some v ∧ posLen v = true := by
  constructor
  · intro h
    rw [checkDataRetrievedE] at h
    cases htr : pyTruthy r with
    | false =>
      rw [htr] at h
      simp at h
    | true =>
      rw [htr, show (!true) = false from rfl, if_neg Bool.false_ne_true] at h
      simp only [guardStep, lenStep] at h
      rcases h with ⟨kvs, d, rfl, hd, k1, c, rfl, hcgi, k2, rc, rfl, hrecs, k3, v,
        rfl, hedges, hpos⟩
      exact ⟨v, by simp [navEdges, hd, hcgi, hrecs, hedges], hpos⟩
  · rintro ⟨v, hnav, hpos⟩
    rcases navEdges_some_elim hnav with ⟨kvs, k1, k2, k3, rfl, hd, hcgi, hrecs, hedges⟩
    rw [checkDataRetrievedE]
    rw [navEdges_some_truthy hnav, show (!true) = false from rfl,
      if_neg Bool.false_ne_true]
    simp only [guardStep, lenStep]
    exact ⟨kvs, .obj k1, rfl, hd, k1, .obj k2, rfl, hcgi, k2, .obj k3, rfl, hrecs,
      k3, v, rfl, hedges, hpos⟩

/-- C7 (amended): the data-records check is total (the catch-all handler
turns any raised exception into false) and returns true exactly when the
expected envelope path navigates through mappings to an `edges` value of
positive Python length — a non-empty list, but also a non-empty string or
mapping at that position (see the counterexample for the latter). -/
theorem checkDataRetrieved_true_iff (r : Json) :
    checkDataRetrieved r = true ↔
      ∃ v, navEdges r = some v ∧ posLen v = true := by
  rw [← checkE_ok_true_iff]
  unfold checkDataRetrieved
  cases h : checkDataRetrievedE r with
  | ok b => cases b <;> simp
  | error m => simp

/-- Counterexample to C7 as stated: on a response carrying a non-empty
string at the `edges` path, `_check_data_retrieved` returns true although no
edges list exists, so "true exactly when the edges list exists and is
non-empty" fails on this input. -/
theorem checkDataRetrieved_counterexample :
    checkDataRetrieved respEdgesStr = true ∧
      edgesListNonempty respEdgesStr = false :=
  ⟨rfl, rfl⟩

/-! ## Advertiser-identity listing (C8) -/

theorem collectIds_map (ids : List String) :
    collectIds (ids.map mkAdvEdge) = .ok (ids.map Json.str) := by
  induction ids with
  | nil => rfl
  | cons a tl ih =>
    simp only [List.map_cons, collectIds, mkAdvEdge, pyIdx, jLookup]
    simp [ih, exceptBindOk, jLookup]

/-- Counterexample to C8 as stated: for this malformed envelope (data and
advertisers present, edges absent) `get_all_advertiser_ids` raises a
KeyError instead of returning an empty sequence. -/
theorem getAllAdvertiserIds_counterexample :
    getAllAdvertiserIds (some respAdvNoEdges) = .error "KeyError: edges" := rfl

/-- C8 (amended): `get_all_advertiser_ids` returns exactly the listed ids in
order for a well-formed envelope (zero advertisers included), and returns an
empty sequence without error when the response is absent, falsy, lacks the
`data` key, or whose data mapping lacks the `advertisers` key; but an
envelope passing those two membership guards with a malformed inside (e.g.
no edges list) raises instead of returning empty (see the counterexample). -/
theorem getAllAdvertiserIds_spec :
    (∀ ids : List String,
        getAllAdvertiserIds (some (mkAdvEnvelope ids)) = .ok (ids.map Json.str)) ∧
      getAllAdvertiserIds none = .ok [] ∧
      (∀ kvs : List (String × Json), jLookup "data" kvs = none →
        getAllAdvertiserIds (some (.obj kvs)) = .ok []) ∧
      (∀ (kvs k1 : List (String × Json)),
        jLookup "data" kvs = some (.obj k1) →
        jLookup "advertisers" k1 = none →
        getAllAdvertiserIds (some (.obj kvs)) = .ok []) := by
  refine ⟨?_, rfl, ?_, ?_⟩
  · intro ids
    simp [getAllAdvertiserIds, mkAdvEnvelope, pyTruthy, pyInKey, pyIdx, jLookup,
      asList, exceptBindOk, collectIds_map ids]
  · intro kvs hd
    cases hkv : kvs.isEmpty with
    | true => simp [getAllAdvertiserIds, pyTruthy, hkv]
    | false => simp [getAllAdvertiserIds, pyTruthy, pyInKey, hd, hkv, exceptBindOk]
  · intro kvs k1 hd ha
    have hne := jLookup_isSome_ne_nil hd
    simp [getAllAdvertiserIds, pyTruthy, pyInKey, pyIdx, hd, ha, hne, exceptBindOk]

/-- Witness for the amended C8: a two-advertiser envelope yields exactly the
two ids; a data mapping without `advertisers` yields the empty sequence. -/
theorem getAllAdvertiserIds_spec_witness :
    getAllAdvertiserIds (some (mkAdvEnvelope ["a", "b"])) =
        .ok [Json.str "a", Json.str "b"] ∧
      getAllAdvertiserIds (some (.obj [("data", .obj [("x", .null)])])) = .ok [] :=
  ⟨getAllAdvertiserIds_spec.1 ["a", "b"],
    getAllAdvertiserIds_spec.2.2.2 [("data", .obj [("x", .null)])] [("x", .null)]
      rfl rfl⟩
